import Mathlib

/-!
# Verification of the Yurak3D heart particle system

Shallow embedding of the two core components of the repository:

* `HeartSystem` (src/unnamed/part_001): the particle simulation engine —
  per-particle spring/gesture/noise forces, damping, Euler integration,
  velocity-based color, the heartbeat pulse, the parametric heart-point
  generator and the particle-count setter.
* `GestureHandler` (src/GestureHandler.js): the landmark classifier —
  fist detection, expand detection, rotation angle.

JavaScript numbers are modelled as real numbers (`ℝ`); `Math.random()`
draws are passed in explicitly as inputs in `[0,1)`; a JavaScript
`TypeError` thrown by reading a property of `undefined` (an out-of-range
landmark index) is modelled by the `Option` monad returning `none`.
-/

open Real

namespace Yurak3D

/-- A 3-component vector, standing in for `THREE.Vector3` and for one
`(x,y,z)` (or `(r,g,b)`) slot of a `Float32Array` buffer. -/
structure Vec3 where
  x : ℝ
  y : ℝ
  z : ℝ

instance : Add Vec3 := ⟨fun a b => ⟨a.x + b.x, a.y + b.y, a.z + b.z⟩⟩

theorem Vec3.add_def (a b : Vec3) : a + b = ⟨a.x + b.x, a.y + b.y, a.z + b.z⟩ := rfl

/-- Model of `THREE.MathUtils.lerp(x, y, t) = (1 - t) * x + t * y`. -/
def lerp (a b t : ℝ) : ℝ := (1 - t) * a + t * b

/-- Model of `Math.hypot(a, b)`. -/
noncomputable def hypot (a b : ℝ) : ℝ := Real.sqrt (a ^ 2 + b ^ 2)

/-! ## Simulation engine (`HeartSystem`, src/unnamed/part_001) -/

/-- The `this.params` object of `HeartSystem`. -/
structure SimParams where
  color1 : Vec3
  color2 : Vec3
  springStrength : ℝ
  damping : ℝ
  noiseStrength : ℝ

/-- The mutable state of a `HeartSystem` instance: the four parallel
buffers (`posArray`, `targetArray`, `velArray`, `colorArray`, modelled as
functions from particle index), the counts, the accumulated time, and the
container rotation. -/
structure HeartSystem where
  maxCount : ℤ
  currentCount : ℤ
  pos : ℕ → Vec3
  target : ℕ → Vec3
  vel : ℕ → Vec3
  color : ℕ → Vec3
  time : ℝ
  pulseSpeed : ℝ
  rotationY : ℝ
  params : SimParams

/-- Gesture type strings `'IDLE' | 'EXPAND' | 'CONTRACT'`. -/
inductive GType where
  | IDLE
  | EXPAND
  | CONTRACT
deriving DecidableEq

/-- The state object produced by `GestureHandler.processResult` and
consumed by `HeartSystem.update`. -/
structure GestureState where
  type : GType
  strength : ℝ
  rotationY : Option ℝ

/-- Model of `setParticleCount(count)`:
`this.currentCount = Math.min(count, this.maxCount)`. (The
`setDrawRange` call only affects the external renderer.) -/
def HeartSystem.setParticleCount (s : HeartSystem) (count : ℤ) : HeartSystem :=
  { s with currentCount := min count s.maxCount }

/-- The heartbeat pulse scalar computed at the top of `update`:
`1 + sin(time*3) * 0.05 * (1 + sin(time*3 + π) * 0.5)`. -/
noncomputable def pulseScale (time : ℝ) : ℝ :=
  1 + Real.sin (time * 3) * 0.05 * (1 + Real.sin (time * 3 + π) * 0.5)

/-- The denominator used to normalize the position vector in the
`EXPAND` branch of `update`: `Math.sqrt(px*px + py*py + pz*pz) + 0.001`. -/
noncomputable def lenEps (p : Vec3) : ℝ :=
  Real.sqrt (p.x ^ 2 + p.y ^ 2 + p.z ^ 2) + 0.001

/-- The gesture force accumulated into `(fx, fy, fz)` inside the
per-particle loop of `update`: radial push for `EXPAND`, linear pull for
`CONTRACT`, nothing for `IDLE`. -/
noncomputable def gestureForce (g : GestureState) (dt : ℝ) (p : Vec3) : Vec3 :=
  match g.type with
  | GType.EXPAND =>
      let len := lenEps p
      let push := 50 * g.strength
      ⟨p.x / len * push * dt, p.y / len * push * dt, p.z / len * push * dt⟩
  | GType.CONTRACT =>
      ⟨-(p.x * 5 * g.strength * dt), -(p.y * 5 * g.strength * dt),
        -(p.z * 5 * g.strength * dt)⟩
  | GType.IDLE => ⟨0, 0, 0⟩

/-- Result of one iteration of the per-particle loop of `update`. -/
structure PState where
  pos : Vec3
  vel : Vec3
  color : Vec3

/-- One iteration of the per-particle loop in `HeartSystem.update`,
statement by statement.  `u` is the triple of `Math.random()` draws used
for the noise force. -/
noncomputable def updateParticle (prm : SimParams) (pulse dt : ℝ) (g : GestureState)
    (u : Vec3) (tgt p v : Vec3) : PState :=
  let tx := tgt.x * pulse
  let ty := tgt.y * pulse
  let tz := tgt.z * pulse
  let fx := (tx - p.x) * prm.springStrength
  let fy := (ty - p.y) * prm.springStrength
  let fz := (tz - p.z) * prm.springStrength
  let gf := gestureForce g dt p
  let fx := fx + gf.x
  let fy := fy + gf.y
  let fz := fz + gf.z
  let fx := fx + (u.x - 0.5) * prm.noiseStrength
  let fy := fy + (u.y - 0.5) * prm.noiseStrength
  let fz := fz + (u.z - 0.5) * prm.noiseStrength
  let vx := (v.x + fx) * prm.damping
  let vy := (v.y + fy) * prm.damping
  let vz := (v.z + fz) * prm.damping
  let px := p.x + vx
  let py := p.y + vy
  let pz := p.z + vz
  let speed := Real.sqrt (vx ^ 2 + vy ^ 2 + vz ^ 2)
  let tColor := min (speed * 0.5) 1
  ⟨⟨px, py, pz⟩, ⟨vx, vy, vz⟩,
    ⟨lerp prm.color1.x prm.color2.x tColor,
     lerp prm.color1.y prm.color2.y tColor,
     lerp prm.color1.z prm.color2.z tColor⟩⟩

/-- Model of `HeartSystem.update(dt, gestureState)`.  `u i` is the triple of
`Math.random()` draws consumed for particle `i`'s noise force.  The loop
runs over indices `0 ≤ i < currentCount`; all other entries are left as
they were.  `targetArray` is only read.  (`handStrength = strength || 0`
is the identity on real strengths, since `0 || 0` is `0`.) -/
noncomputable def HeartSystem.update (s : HeartSystem) (dt : ℝ) (g : GestureState)
    (u : ℕ → Vec3) : HeartSystem :=
  let time := s.time + dt * s.pulseSpeed
  let pulse := pulseScale time
  let step := fun i => updateParticle s.params pulse dt g (u i) (s.target i) (s.pos i) (s.vel i)
  { s with
    time := time
    pos := fun i => if (i : ℤ) < s.currentCount then (step i).pos else s.pos i
    vel := fun i => if (i : ℤ) < s.currentCount then (step i).vel else s.vel i
    color := fun i => if (i : ℤ) < s.currentCount then (step i).color else s.color i
    rotationY :=
      match g.rotationY with
      | some r => s.rotationY + (r - s.rotationY) * 0.1
      | none => s.rotationY + dt * 0.1 }

/-! ## Volumetric generator (`getHeartPoint` / `resetParticle`) -/

/-- The boundary curve `x` coordinate: `16 * sin(t)^3`. -/
noncomputable def heartX (t : ℝ) : ℝ := 16 * Real.sin t ^ 3

/-- The boundary curve `y` coordinate:
`13 cos(t) - 5 cos(2t) - 2 cos(3t) - cos(4t)`. -/
noncomputable def heartY (t : ℝ) : ℝ :=
  13 * Real.cos t - 5 * Real.cos (2 * t) - 2 * Real.cos (3 * t) - Real.cos (4 * t)

/-- Model of `getHeartPoint(t, scale)`, with the `Math.random()` draw for the `z`
coordinate passed in as `uz`:
`(x * scale, y * scale, (uz - 0.5) * 10 * scale)`. -/
noncomputable def getHeartPoint (t scale uz : ℝ) : Vec3 :=
  ⟨heartX t * scale, heartY t * scale, (uz - 0.5) * 10 * scale⟩

/-- The home point written by `resetParticle(i)`, with the three
`Math.random()` draws `u1` (for `t`), `u2` (for `r`) and `u3` (for `z`)
passed in: `t = u1 * π * 2`, `r = sqrt(u2)`, `p = getHeartPoint(t, r)`,
then `p.y += 2`. -/
noncomputable def resetParticle (u1 u2 u3 : ℝ) : Vec3 :=
  let t := u1 * π * 2
  let r := Real.sqrt u2
  let p := getHeartPoint t r u3
  ⟨p.x, p.y + 2, p.z⟩

/-! ## Specification-side definitions (for the refinement claims) -/

/-- Spec wording: the home target scaled by the pulse factor. -/
def scaleVec (k : ℝ) (v : Vec3) : Vec3 := ⟨v.x * k, v.y * k, v.z * k⟩

/-- Spec wording: `f_spring = (home·pulseScale − position) · springStrength`. -/
def springForce (strength : ℝ) (homeScaled p : Vec3) : Vec3 :=
  ⟨(homeScaled.x - p.x) * strength, (homeScaled.y - p.y) * strength,
    (homeScaled.z - p.z) * strength⟩

/-- Spec wording: per-axis noise `(u − 0.5) · noiseStrength`. -/
def noiseForce (strength : ℝ) (u : Vec3) : Vec3 :=
  ⟨(u.x - 0.5) * strength, (u.y - 0.5) * strength, (u.z - 0.5) * strength⟩

/-- Spec wording: `velocity *= damping`. -/
def dampVel (damping : ℝ) (v : Vec3) : Vec3 :=
  ⟨v.x * damping, v.y * damping, v.z * damping⟩

/-- Spec wording: `speed = |velocity|`. -/
noncomputable def speedOf (v : Vec3) : ℝ := Real.sqrt (v.x ^ 2 + v.y ^ 2 + v.z ^ 2)

/-- Spec wording: color recomputed from scratch as the linear
interpolation between `colorLow` and `colorHigh` with factor
`min(speed · 0.5, 1)`. -/
noncomputable def specColor (prm : SimParams) (v : Vec3) : Vec3 :=
  let tc := min (speedOf v * 0.5) 1
  ⟨lerp prm.color1.x prm.color2.x tc, lerp prm.color1.y prm.color2.y tc,
    lerp prm.color1.z prm.color2.z tc⟩

/-! ## Landmark classifier (`GestureHandler`, src/GestureHandler.js) -/

/-- One MediaPipe hand landmark; only the normalized `x`,`y` coordinates
are read by the classifier (`z` is never accessed). -/
structure Landmark where
  x : ℝ
  y : ℝ

/-- A hand: the ordered landmark array.  `h[i]?` models the JavaScript
array access `landmarks[i]`, whose subsequent `.x` property read throws
(`none`) when the index is out of range. -/
abbrev Hand := List Landmark

/-- Model of `GestureHandler.isFist(landmarks)`: count the non-thumb fingers
(tips `8,12,16,20`, PIP joints `6,10,14,18`) whose planar
tip-to-wrist distance is strictly smaller than the PIP-to-wrist
distance; a fist is 3 or more folded fingers.  `none` models the
`TypeError` thrown when a required landmark index is missing. -/
noncomputable def isFist (h : Hand) : Option Bool := do
  let wrist ← h[0]?
  let l8 ← h[8]?
  let l6 ← h[6]?
  let l12 ← h[12]?
  let l10 ← h[10]?
  let l16 ← h[16]?
  let l14 ← h[14]?
  let l20 ← h[20]?
  let l18 ← h[18]?
  let folded := fun (tip pip : Landmark) =>
    if hypot (tip.x - wrist.x) (tip.y - wrist.y) <
        hypot (pip.x - wrist.x) (pip.y - wrist.y) then (1 : ℕ) else 0
  let foldedFingers :=
    folded l8 l6 + folded l12 l10 + folded l16 l14 + folded l20 l18
  pure (decide (3 ≤ foldedFingers))

/-- Model of `GestureHandler.processResult(result)`, on the list of detected
hands.  The state starts as `IDLE`/`0`/`undefined`; with at least one
hand the rotation is set from wrist 0, then the fist check (hand 0, and
hand 1 when present) decides `CONTRACT`, else the two-hand wrist
distance or the one-hand thumb-to-index distance decides `EXPAND`.
`none` models a thrown `TypeError` from a missing landmark. -/
noncomputable def processResult (hands : List Hand) : Option GestureState :=
  if hands.length > 0 then do
    let hand1 ← hands[0]?
    let wrist ← hand1[0]?
    let rotationY := (wrist.x - 0.5) * π * 2
    let f1 ← isFist hand1
    let fist ←
      if hands.length > 1 then do
        let h2 ← hands[1]?
        let f2 ← isFist h2
        pure (f1 || f2)
      else
        pure f1
    if fist then
      pure ⟨GType.CONTRACT, 1.0, some rotationY⟩
    else
      if hands.length = 2 then do
        let h1 ← hands[0]?
        let h2 ← hands[1]?
        let w1 ← h1[0]?
        let w2 ← h2[0]?
        let dist := hypot (w1.x - w2.x) (w1.y - w2.y)
        if dist > 0.5 then
          pure ⟨GType.EXPAND, (dist - 0.5) * 2, some rotationY⟩
        else
          pure ⟨GType.IDLE, 0, some rotationY⟩
      else do
        let thumbTip ← hand1[4]?
        let indexTip ← hand1[8]?
        let dist := hypot (thumbTip.x - indexTip.x) (thumbTip.y - indexTip.y)
        if dist > 0.25 then
          pure ⟨GType.EXPAND, (dist - 0.25) * 3, some rotationY⟩
        else
          pure ⟨GType.IDLE, 0, some rotationY⟩
  else
    pure ⟨GType.IDLE, 0, none⟩

/-- Spec wording for one folded finger: `1` when the fingertip's planar
Euclidean distance to the wrist is strictly below the PIP joint's. -/
noncomputable def foldedIf (wrist tip pip : Landmark) : ℕ :=
  if hypot (tip.x - wrist.x) (tip.y - wrist.y) <
      hypot (pip.x - wrist.x) (pip.y - wrist.y) then 1 else 0

/-! ## Concrete instances used by counterexamples and witnesses -/

/-- A concrete `HeartSystem` state (maxCount 5000, currentCount 3, all
buffers constant) used for closed counterexamples and witnesses. -/
noncomputable def sys0 : HeartSystem where
  maxCount := 5000
  currentCount := 3
  pos := fun _ => ⟨1, 2, 3⟩
  target := fun _ => ⟨4, 5, 6⟩
  vel := fun _ => ⟨0, 0, 0⟩
  color := fun _ => ⟨1, 0, 0⟩
  time := 0
  pulseSpeed := 1
  rotationY := 0
  params := ⟨⟨1, 0, 1/3⟩, ⟨1, 0, 1⟩, 1/20, 23/25, 1/5⟩

end Yurak3D

namespace Yurak3D

/-! ## Helper lemmas -/

theorem hypot_nonneg (a b : ℝ) : 0 ≤ hypot a b := Real.sqrt_nonneg _

theorem hypot_lt_hypot_iff (a b c d : ℝ) :
    hypot a b < hypot c d ↔ a ^ 2 + b ^ 2 < c ^ 2 + d ^ 2 := by
  unfold hypot
  exact Real.sqrt_lt_sqrt_iff (by positivity)

theorem lt_hypot_iff (c a b : ℝ) (hc : 0 ≤ c) :
    c < hypot a b ↔ c ^ 2 < a ^ 2 + b ^ 2 := by
  unfold hypot
  exact Real.lt_sqrt hc

theorem hypot_eq_of_sq_eq (a b c : ℝ) (hc : 0 ≤ c) (h : a ^ 2 + b ^ 2 = c ^ 2) :
    hypot a b = c := by
  unfold hypot
  rw [h, Real.sqrt_sq hc]

/-- A hand missing one of the landmark indices read by `isFist` (the
maximal one is 20) makes `isFist` fail. -/
theorem isFist_eq_none_of_short (h : Hand) (hlen : h.length < 21) :
    isFist h = none := by
  have h20 : h[20]? = none := List.getElem?_eq_none (by omega)
  unfold isFist
  simp only [h20]
  cases h[0]? <;> cases h[8]? <;> cases h[6]? <;> cases h[12]? <;>
    cases h[10]? <;> cases h[16]? <;> cases h[14]? <;> rfl

/-- A hand with all 21 landmarks present makes `isFist` succeed. -/
theorem isFist_isSome_of_long (h : Hand) (hl : 21 ≤ h.length) :
    ∃ b, isFist h = some b := by
  unfold isFist
  simp only [List.getElem?_eq_getElem (show 0 < h.length by omega),
    List.getElem?_eq_getElem (show 8 < h.length by omega),
    List.getElem?_eq_getElem (show 6 < h.length by omega),
    List.getElem?_eq_getElem (show 12 < h.length by omega),
    List.getElem?_eq_getElem (show 10 < h.length by omega),
    List.getElem?_eq_getElem (show 16 < h.length by omega),
    List.getElem?_eq_getElem (show 14 < h.length by omega),
    List.getElem?_eq_getElem (show 20 < h.length by omega),
    List.getElem?_eq_getElem (show 18 < h.length by omega)]
  exact ⟨_, rfl⟩

/-! ## C2: malformed landmark input -/

/-- C2: for every classifier input (zero, one or two hands) in which
some hand has fewer landmarks than the fixed anatomical indices require
(fewer than 21 points, so one of wrist 0, thumb tip 4, tips 8/12/16/20
or PIPs 6/10/14/18 is missing), the classifier fails — the thrown
`TypeError` is modelled as `none` — instead of producing a gesture
state. -/
theorem classifier_short_hand_fails (hands : List Hand)
    (hlen : hands.length ≤ 2)
    (hshort : ∃ h ∈ hands, h.length < 21) :
    processResult hands = none := by
  match hands with
  | [] =>
      rcases hshort with ⟨h, hm, _⟩
      simp at hm
  | [h1] =>
      rcases hshort with ⟨h, hm, hsh⟩
      simp at hm
      subst hm
      have hf := isFist_eq_none_of_short h hsh
      cases e0 : h[0]? with
      | none => simp [processResult, e0]
      | some w => simp [processResult, e0, hf]
  | [h1, h2] =>
      rcases hshort with ⟨h, hm, hsh⟩
      simp at hm
      rcases hm with rfl | rfl
      · have hf := isFist_eq_none_of_short h hsh
        cases e0 : h[0]? with
        | none => simp [processResult, e0]
        | some w => simp [processResult, e0, hf]
      · have hf2 := isFist_eq_none_of_short h hsh
        cases e0 : h1[0]? with
        | none => simp [processResult, e0]
        | some w =>
          cases e1 : isFist h1 with
          | none => simp [processResult, e0, e1]
          | some f1 => simp [processResult, e0, e1, hf2]
  | _ :: _ :: _ :: _ => simp at hlen

/-- C2 witness: a single hand carrying only its wrist landmark makes the
classifier fail. -/
theorem classifier_short_hand_fails_witness :
    processResult [[(⟨0.5, 0.5⟩ : Landmark)]] = none :=
  classifier_short_hand_fails [[⟨0.5, 0.5⟩]] (by simp)
    ⟨[⟨0.5, 0.5⟩], by simp, by norm_num⟩

/-- Evaluation of `isFist` on a hand whose nine read landmarks are
known. -/
theorem isFist_eval (h : Hand) (w l8 l6 l12 l10 l16 l14 l20 l18 : Landmark)
    (e0 : h[0]? = some w) (e8 : h[8]? = some l8) (e6 : h[6]? = some l6)
    (e12 : h[12]? = some l12) (e10 : h[10]? = some l10)
    (e16 : h[16]? = some l16) (e14 : h[14]? = some l14)
    (e20 : h[20]? = some l20) (e18 : h[18]? = some l18) :
    isFist h = some (decide (3 ≤
      foldedIf w l8 l6 + foldedIf w l12 l10 + foldedIf w l16 l14 +
        foldedIf w l20 l18)) := by
  unfold isFist foldedIf
  simp only [e0, e8, e6, e12, e10, e16, e14, e20, e18]
  rfl

/-! ## C4: fist detection and contract priority -/

/-- C4: a hand is a fist exactly when at least 3 of its 4 non-thumb
fingers have planar fingertip-to-wrist distance strictly below the
PIP-to-wrist distance; and whenever hand 0 is a fist (with any second
hand present or not), or hand 0 is not a fist but a present hand 1 is,
the classifier outputs `CONTRACT` with strength exactly `1.0`,
suppressing any expand detection. -/
theorem fist_contract_priority
    (h1 h2 : Hand) (w l8 l6 l12 l10 l16 l14 l20 l18 : Landmark)
    (e0 : h1[0]? = some w) (e8 : h1[8]? = some l8) (e6 : h1[6]? = some l6)
    (e12 : h1[12]? = some l12) (e10 : h1[10]? = some l10)
    (e16 : h1[16]? = some l16) (e14 : h1[14]? = some l14)
    (e20 : h1[20]? = some l20) (e18 : h1[18]? = some l18) :
    (isFist h1 = some true ↔
      3 ≤ foldedIf w l8 l6 + foldedIf w l12 l10 + foldedIf w l16 l14 +
        foldedIf w l20 l18) ∧
    (isFist h1 = some true →
      processResult [h1] = some ⟨GType.CONTRACT, 1.0, some ((w.x - 0.5) * π * 2)⟩) ∧
    (∀ b2, isFist h1 = some true → isFist h2 = some b2 →
      processResult [h1, h2] = some ⟨GType.CONTRACT, 1.0, some ((w.x - 0.5) * π * 2)⟩) ∧
    (isFist h1 = some false → isFist h2 = some true →
      processResult [h1, h2] = some ⟨GType.CONTRACT, 1.0, some ((w.x - 0.5) * π * 2)⟩) := by
  refine ⟨?_, fun hf => ?_, fun b2 hf hf2 => ?_, fun hf hf2 => ?_⟩
  · rw [isFist_eval h1 w l8 l6 l12 l10 l16 l14 l20 l18 e0 e8 e6 e12 e10 e16 e14 e20 e18]
    simp
  · simp [processResult, e0, hf]
  · simp [processResult, e0, hf, hf2]
  · simp [processResult, e0, hf, hf2]

/-- A concrete fist: every fingertip at planar distance `0.1` from the
wrist, every PIP joint at distance `0.3`. -/
noncomputable def fistHand : Hand :=
  [⟨0, 0⟩, ⟨0, 0⟩, ⟨0, 0⟩, ⟨0, 0⟩, ⟨0, 0⟩, ⟨0, 0⟩,
   ⟨0.3, 0⟩, ⟨0, 0⟩, ⟨0.1, 0⟩, ⟨0, 0⟩,
   ⟨0.3, 0⟩, ⟨0, 0⟩, ⟨0.1, 0⟩, ⟨0, 0⟩,
   ⟨0.3, 0⟩, ⟨0, 0⟩, ⟨0.1, 0⟩, ⟨0, 0⟩,
   ⟨0.3, 0⟩, ⟨0, 0⟩, ⟨0.1, 0⟩]

/-- C4 witness: the concrete fist yields `CONTRACT` with strength 1. -/
theorem fist_contract_priority_witness :
    isFist fistHand = some true ∧
      processResult [fistHand] =
        some ⟨GType.CONTRACT, 1.0, some (((0 : ℝ) - 0.5) * π * 2)⟩ := by
  have C := fist_contract_priority fistHand fistHand ⟨0, 0⟩ ⟨0.1, 0⟩ ⟨0.3, 0⟩
    ⟨0.1, 0⟩ ⟨0.3, 0⟩ ⟨0.1, 0⟩ ⟨0.3, 0⟩ ⟨0.1, 0⟩ ⟨0.3, 0⟩
    rfl rfl rfl rfl rfl rfl rfl rfl rfl
  have hone : foldedIf (⟨0, 0⟩ : Landmark) ⟨0.1, 0⟩ ⟨0.3, 0⟩ = 1 := by
    unfold foldedIf
    rw [if_pos]
    rw [hypot_lt_hypot_iff]
    norm_num
  have hf : isFist fistHand = some true := by
    rw [C.1, hone]
    norm_num
  exact ⟨hf, C.2.1 hf⟩

/-! ## C5: expand detection and idle fallback -/

/-- C5: when no fist is detected, two hands with planar wrist-to-wrist
distance above `0.5` yield `EXPAND` with unclamped strength
`(dist − 0.5)·2` and otherwise `IDLE` with strength `0`; one hand with
planar thumb-tip-to-index-tip distance above `0.25` yields `EXPAND`
with unclamped strength `(dist − 0.25)·3` and otherwise `IDLE` with
strength `0`. -/
theorem expand_idle_classification
    (h1 h2 : Hand) (w1 w2 t4 t8 : Landmark)
    (e0 : h1[0]? = some w1) (e4 : h1[4]? = some t4) (e8 : h1[8]? = some t8)
    (e0' : h2[0]? = some w2)
    (f1 : isFist h1 = some false) (f2 : isFist h2 = some false) :
    (processResult [h1, h2] =
      some (if 0.5 < hypot (w1.x - w2.x) (w1.y - w2.y) then
              ⟨GType.EXPAND, (hypot (w1.x - w2.x) (w1.y - w2.y) - 0.5) * 2,
                some ((w1.x - 0.5) * π * 2)⟩
            else ⟨GType.IDLE, 0, some ((w1.x - 0.5) * π * 2)⟩)) ∧
    (processResult [h1] =
      some (if 0.25 < hypot (t4.x - t8.x) (t4.y - t8.y) then
              ⟨GType.EXPAND, (hypot (t4.x - t8.x) (t4.y - t8.y) - 0.25) * 3,
                some ((w1.x - 0.5) * π * 2)⟩
            else ⟨GType.IDLE, 0, some ((w1.x - 0.5) * π * 2)⟩)) := by
  constructor
  · simp [processResult, e0, e0', f1, f2]
    split <;> rfl
  · simp [processResult, e0, e4, e8, f1]
    split <;> rfl

/-- An open hand: all 21 landmarks at the same point `(a, 0)` — every
distance is `0`, so no finger is folded and no pinch is open. -/
noncomputable def openHand (a : ℝ) : Hand := List.replicate 21 ⟨a, 0⟩

theorem openHand_getElem (a : ℝ) (i : ℕ) (hi : i < 21) :
    (openHand a)[i]? = some ⟨a, 0⟩ := by
  unfold openHand
  exact List.getElem?_replicate_of_lt hi

theorem isFist_openHand (a : ℝ) : isFist (openHand a) = some false := by
  have hz : foldedIf (⟨a, 0⟩ : Landmark) ⟨a, 0⟩ ⟨a, 0⟩ = 0 := by
    unfold foldedIf
    rw [if_neg (lt_irrefl _)]
  rw [isFist_eval (openHand a) ⟨a, 0⟩ ⟨a, 0⟩ ⟨a, 0⟩ ⟨a, 0⟩ ⟨a, 0⟩ ⟨a, 0⟩ ⟨a, 0⟩ ⟨a, 0⟩ ⟨a, 0⟩
    (openHand_getElem a 0 (by norm_num)) (openHand_getElem a 8 (by norm_num))
    (openHand_getElem a 6 (by norm_num)) (openHand_getElem a 12 (by norm_num))
    (openHand_getElem a 10 (by norm_num)) (openHand_getElem a 16 (by norm_num))
    (openHand_getElem a 14 (by norm_num)) (openHand_getElem a 20 (by norm_num))
    (openHand_getElem a 18 (by norm_num)), hz]
  norm_num

/-- C5 witness: two open hands with wrists at `x = 0.2` and `x = 0.8`
(planar distance `0.6`) yield `EXPAND` with strength `(0.6 − 0.5)·2`. -/
theorem expand_idle_classification_witness :
    isFist (openHand 0.2) = some false ∧
      processResult [openHand 0.2, openHand 0.8] =
        some ⟨GType.EXPAND, ((0.6 : ℝ) - 0.5) * 2, some (((0.2 : ℝ) - 0.5) * π * 2)⟩ := by
  have hf1 := isFist_openHand 0.2
  have hf2 := isFist_openHand 0.8
  have C := expand_idle_classification (openHand 0.2) (openHand 0.8)
    ⟨0.2, 0⟩ ⟨0.8, 0⟩ ⟨0.2, 0⟩ ⟨0.2, 0⟩
    (openHand_getElem 0.2 0 (by norm_num)) (openHand_getElem 0.2 4 (by norm_num))
    (openHand_getElem 0.2 8 (by norm_num)) (openHand_getElem 0.8 0 (by norm_num))
    hf1 hf2
  have hd : hypot ((0.2 : ℝ) - 0.8) (0 - 0) = 0.6 := by
    apply hypot_eq_of_sq_eq <;> norm_num
  refine ⟨hf1, ?_⟩
  rw [C.1]
  simp only [hd]
  rw [if_pos (by norm_num)]

/-! ## C7: rotation angle -/

/-- C7: with no hand the classifier returns `IDLE` with strength `0`
and undefined rotation; with at least one hand, every successful
classification carries `rotationY = (wrist₀.x − 0.5) · 2π` regardless
of the gesture branch taken — in particular wrist `x = 0.5, 1, 0` map
to `0`, `π`, `−π` respectively. -/
theorem rotation_angle_formula :
    processResult [] = some ⟨GType.IDLE, 0, none⟩ ∧
    (∀ (hands : List Hand) (h : Hand) (w : Landmark) (st : GestureState),
      hands.length ≤ 2 → hands[0]? = some h → h[0]? = some w →
      processResult hands = some st →
      st.rotationY = some ((w.x - 0.5) * π * 2)) ∧
    (((0.5 : ℝ) - 0.5) * π * 2 = 0 ∧ ((1 : ℝ) - 0.5) * π * 2 = π ∧
      ((0 : ℝ) - 0.5) * π * 2 = -π) := by
  refine ⟨rfl, ?_, by norm_num, by ring, by ring⟩
  intro hands h w st hlen e0 ew hst
  match hands with
  | [h1] =>
      simp only [List.getElem?_cons_zero, Option.some.injEq] at e0
      subst e0
      rcases hf : isFist h1 with _ | f
      · simp [processResult, ew, hf] at hst
      · rcases f with _ | _
        · rcases e4 : h1[4]? with _ | t4
          · simp [processResult, ew, hf, e4] at hst
          · rcases e8 : h1[8]? with _ | t8
            · simp [processResult, ew, hf, e4, e8] at hst
            · simp [processResult, ew, hf, e4, e8] at hst
              split at hst <;>
                (rw [Option.some.injEq] at hst; subst hst; rfl)
        · simp [processResult, ew, hf] at hst
          subst hst
          rfl
  | [h1, h2] =>
      simp only [List.getElem?_cons_zero, Option.some.injEq] at e0
      subst e0
      rcases hf : isFist h1 with _ | f
      · simp [processResult, ew, hf] at hst
      · rcases hf2 : isFist h2 with _ | f2
        · simp [processResult, ew, hf, hf2] at hst
        · by_cases hor : f = true ∨ f2 = true
          · simp [processResult, ew, hf, hf2, hor] at hst
            subst hst
            rfl
          · rcases e0' : h2[0]? with _ | w2
            · simp [processResult, ew, hf, hf2, hor, e0'] at hst
            · simp [processResult, ew, hf, hf2, hor, e0'] at hst
              split at hst <;>
                (rw [Option.some.injEq] at hst; subst hst; rfl)
  | [] => simp at e0
  | _ :: _ :: _ :: _ => simp at hlen

/-- Full evaluation of the classifier on one open hand: no fist, pinch
distance `0`, hence `IDLE` with the wrist-derived rotation. -/
theorem processResult_openHand (a : ℝ) :
    processResult [openHand a] = some ⟨GType.IDLE, 0, some ((a - 0.5) * π * 2)⟩ := by
  have hf := isFist_openHand a
  have e0 := openHand_getElem a 0 (by norm_num)
  have e4 := openHand_getElem a 4 (by norm_num)
  have e8 := openHand_getElem a 8 (by norm_num)
  have h0 : hypot (0 : ℝ) 0 = 0 := by
    apply hypot_eq_of_sq_eq <;> norm_num
  norm_num [processResult, e0, e4, e8, hf, h0]

/-- C7 witness: one open hand with wrist at `x = 1` classifies with
rotation `(1 − 0.5)·2π`. -/
theorem rotation_angle_formula_witness :
    processResult [openHand 1] =
      some ⟨GType.IDLE, 0, some (((1 : ℝ) - 0.5) * π * 2)⟩ ∧
      (⟨GType.IDLE, (0 : ℝ), some (((1 : ℝ) - 0.5) * π * 2)⟩ : GestureState).rotationY =
        some (((⟨1, 0⟩ : Landmark).x - 0.5) * π * 2) := by
  have hp := processResult_openHand 1
  refine ⟨hp, ?_⟩
  exact rotation_angle_formula.2.1 [openHand 1] (openHand 1) ⟨1, 0⟩
    ⟨GType.IDLE, 0, some (((1 : ℝ) - 0.5) * π * 2)⟩ (by simp)
    rfl (openHand_getElem 1 0 (by norm_num)) hp

/-! ## C1: setParticleCount -/

/-- C1 (counterexample): the claim says `setActiveCount(n)` clamps `n`
into `[0, maxCount]`, so a negative `n` would yield `activeCount = 0`,
never a negative value.  On the code, `setParticleCount(-1)` stores
`min(-1, maxCount) = -1`, a negative active count. -/
theorem setParticleCount_neg_counterexample :
    (sys0.setParticleCount (-1)).currentCount = -1 ∧
      (sys0.setParticleCount (-1)).currentCount < 0 := by
  constructor <;> simp [HeartSystem.setParticleCount, sys0]

/-- C1 (amended): `setParticleCount(n)` sets `activeCount` to
`min(n, maxCount)` — an upper clamp only, so a negative `n` yields a
negative active count — and leaves the position, home, velocity and
color buffers entirely unchanged. -/
theorem setParticleCount_min_and_buffers (s : HeartSystem) (n : ℤ) :
    (s.setParticleCount n).currentCount = min n s.maxCount ∧
      (s.setParticleCount n).pos = s.pos ∧
      (s.setParticleCount n).target = s.target ∧
      (s.setParticleCount n).vel = s.vel ∧
      (s.setParticleCount n).color = s.color := by
  refine ⟨rfl, rfl, rfl, rfl, rfl⟩

/-! ## C3: integration order and derived color -/

/-- C3: for every active particle in every `update(dt, gesture)` call,
the per-particle update is exactly `velocity += f_spring + f_gesture +
f_noise`, then `velocity *= damping`, then `position += velocity`
(damping after force accumulation, before position integration), and
the color is recomputed from scratch as the interpolation between
`color1` and `color2` with factor `min(|velocity|·0.5, 1)` — in
particular the color output is independent of the previous color
buffer. -/
theorem updateParticle_integration_order (prm : SimParams) (pulse dt : ℝ)
    (g : GestureState) (u tgt p v : Vec3) (s : HeartSystem) (ν : ℕ → Vec3) (i : ℕ) :
    ((updateParticle prm pulse dt g u tgt p v).vel =
        dampVel prm.damping
          (v + (springForce prm.springStrength (scaleVec pulse tgt) p +
                gestureForce g dt p + noiseForce prm.noiseStrength u))) ∧
    ((updateParticle prm pulse dt g u tgt p v).pos =
        p + (updateParticle prm pulse dt g u tgt p v).vel) ∧
    ((updateParticle prm pulse dt g u tgt p v).color =
        specColor prm ((updateParticle prm pulse dt g u tgt p v).vel)) ∧
    ((i : ℤ) < s.currentCount →
      (s.update dt g ν).vel i =
          (updateParticle s.params (pulseScale (s.time + dt * s.pulseSpeed)) dt g
            (ν i) (s.target i) (s.pos i) (s.vel i)).vel ∧
      (s.update dt g ν).pos i =
          (updateParticle s.params (pulseScale (s.time + dt * s.pulseSpeed)) dt g
            (ν i) (s.target i) (s.pos i) (s.vel i)).pos ∧
      (s.update dt g ν).color i =
          (updateParticle s.params (pulseScale (s.time + dt * s.pulseSpeed)) dt g
            (ν i) (s.target i) (s.pos i) (s.vel i)).color ∧
      ∀ c : ℕ → Vec3,
        (({ s with color := c } : HeartSystem).update dt g ν).color i =
          (s.update dt g ν).color i) := by
  refine ⟨?_, ?_, ?_, fun hi => ?_⟩
  · simp only [updateParticle, dampVel, springForce, scaleVec, noiseForce, Vec3.add_def,
      Vec3.mk.injEq]
  · simp only [updateParticle, Vec3.add_def, Vec3.mk.injEq]
  · simp only [updateParticle, specColor, speedOf]
  · refine ⟨?_, ?_, ?_, fun c => ?_⟩ <;>
      simp only [HeartSystem.update, hi, if_pos]

/-- C3 witness. -/
theorem updateParticle_integration_order_witness :
    (0 : ℤ) < sys0.currentCount ∧
      (sys0.update 1 ⟨GType.IDLE, 0, none⟩ (fun _ => ⟨0, 0, 0⟩)).vel 0 =
        (updateParticle sys0.params (pulseScale (sys0.time + 1 * sys0.pulseSpeed)) 1
          ⟨GType.IDLE, 0, none⟩ ⟨0, 0, 0⟩ (sys0.target 0) (sys0.pos 0)
          (sys0.vel 0)).vel := by
  have hi : (0 : ℤ) < sys0.currentCount := by norm_num [sys0]
  exact ⟨hi,
    ((updateParticle_integration_order sys0.params (pulseScale (sys0.time + 1 * sys0.pulseSpeed))
      1 ⟨GType.IDLE, 0, none⟩ ⟨0, 0, 0⟩ (sys0.target 0) (sys0.pos 0) (sys0.vel 0)
      sys0 (fun _ => ⟨0, 0, 0⟩) 0).2.2.2 hi).1⟩

/-! ## C8: expand-force normalization denominator -/

/-- C8: for every particle position, including the exact origin, the
normalization denominator `sqrt(px² + py² + pz²) + 0.001` used by the
`EXPAND` force is strictly positive (no division-by-zero fault), it
equals exactly `0.001` at the origin, and the resulting radial force at
the origin is the zero vector. -/
theorem expand_force_denominator_pos (p : Vec3) (str dt rot : ℝ) :
    0 < lenEps p ∧
      lenEps ⟨0, 0, 0⟩ = 0.001 ∧
      gestureForce ⟨GType.EXPAND, str, some rot⟩ dt ⟨0, 0, 0⟩ = ⟨0, 0, 0⟩ := by
  refine ⟨?_, ?_, ?_⟩
  · have h := Real.sqrt_nonneg (p.x ^ 2 + p.y ^ 2 + p.z ^ 2)
    unfold lenEps
    linarith
  · unfold lenEps
    norm_num
  · unfold gestureForce
    norm_num

/-! ## C9: home invariance and frozen suffix -/

/-- C9: every `update(dt, gesture)` call leaves the home buffer
(`targetArray`) entirely unchanged, and leaves position, velocity and
color entries at every index at or beyond `currentCount` unchanged;
consequently shrinking the active count with `setParticleCount`,
stepping, and re-growing it reproduces the original buffer data at
every index outside the shrunken range. -/
theorem update_frozen_beyond_count (s : HeartSystem) (dt : ℝ) (g : GestureState)
    (ν : ℕ → Vec3) :
    (s.update dt g ν).target = s.target ∧
    (∀ i : ℕ, s.currentCount ≤ (i : ℤ) →
      (s.update dt g ν).pos i = s.pos i ∧
      (s.update dt g ν).vel i = s.vel i ∧
      (s.update dt g ν).color i = s.color i) ∧
    (∀ n m : ℤ, ∀ i : ℕ, min n s.maxCount ≤ (i : ℤ) →
      (((s.setParticleCount n).update dt g ν).setParticleCount m).pos i = s.pos i ∧
      (((s.setParticleCount n).update dt g ν).setParticleCount m).vel i = s.vel i ∧
      (((s.setParticleCount n).update dt g ν).setParticleCount m).color i = s.color i ∧
      (((s.setParticleCount n).update dt g ν).setParticleCount m).target = s.target) := by
  refine ⟨rfl, fun i hi => ?_, fun n m i hi => ?_⟩
  · have hx : ¬((i : ℤ) < s.currentCount) := not_lt.mpr hi
    exact ⟨by simp [HeartSystem.update, hx], by simp [HeartSystem.update, hx],
      by simp [HeartSystem.update, hx]⟩
  · have hx : ¬((i : ℤ) < min n s.maxCount) := not_lt.mpr hi
    refine ⟨?_, ?_, ?_, rfl⟩ <;>
      simp only [HeartSystem.setParticleCount, HeartSystem.update, if_neg hx]

/-- C9 witness. -/
theorem update_frozen_beyond_count_witness :
    sys0.currentCount ≤ ((5 : ℕ) : ℤ) ∧
      (sys0.update 1 ⟨GType.IDLE, 0, none⟩ (fun _ => ⟨0, 0, 0⟩)).pos 5 = sys0.pos 5 ∧
      min 2 sys0.maxCount ≤ ((2 : ℕ) : ℤ) ∧
      (((sys0.setParticleCount 2).update 1 ⟨GType.IDLE, 0, none⟩
          (fun _ => ⟨0, 0, 0⟩)).setParticleCount 7).pos 2 = sys0.pos 2 := by
  have h1 : sys0.currentCount ≤ ((5 : ℕ) : ℤ) := by norm_num [sys0]
  have h2 : min 2 sys0.maxCount ≤ ((2 : ℕ) : ℤ) := by norm_num [sys0]
  refine ⟨h1, ?_, h2, ?_⟩
  · exact ((update_frozen_beyond_count sys0 1 ⟨GType.IDLE, 0, none⟩
      (fun _ => ⟨0, 0, 0⟩)).2.1 5 h1).1
  · exact ((update_frozen_beyond_count sys0 1 ⟨GType.IDLE, 0, none⟩
      (fun _ => ⟨0, 0, 0⟩)).2.2 2 7 2 h2).1

/-! ## C6: volumetric generator -/

/-- C6: every generated home point, for draws `u1` (angle), `u2`
(radius) and `u3` (depth) in `[0,1)`, equals
`(16 sin³(t) · r, (13 cos t − 5 cos 2t − 2 cos 3t − cos 4t) · r + 2, z)`
with `t = u1·2π`, `r = √u2` and `z = (u3 − 0.5)·10·r`; the depth lies
in `[−5r, 5r]`, and at `r = 1` the generated `x` and the generated `y`
minus the recentering offset `2` satisfy the heart-curve equations
exactly. -/
theorem resetParticle_heart_formula (u1 u2 u3 : ℝ) :
    resetParticle u1 u2 u3 =
      ⟨16 * Real.sin (u1 * π * 2) ^ 3 * Real.sqrt u2,
        (13 * Real.cos (u1 * π * 2) - 5 * Real.cos (2 * (u1 * π * 2)) -
            2 * Real.cos (3 * (u1 * π * 2)) - Real.cos (4 * (u1 * π * 2))) *
            Real.sqrt u2 + 2,
        (u3 - 0.5) * 10 * Real.sqrt u2⟩ ∧
    (0 ≤ u3 → u3 ≤ 1 →
      -(5 * Real.sqrt u2) ≤ (resetParticle u1 u2 u3).z ∧
        (resetParticle u1 u2 u3).z ≤ 5 * Real.sqrt u2) ∧
    (u2 = 1 →
      (resetParticle u1 u2 u3).x = heartX (u1 * π * 2) ∧
        (resetParticle u1 u2 u3).y - 2 = heartY (u1 * π * 2)) := by
  refine ⟨rfl, fun h0 h1 => ?_, fun h2 => ?_⟩
  · have hr : 0 ≤ Real.sqrt u2 := Real.sqrt_nonneg u2
    constructor <;>
      · simp only [resetParticle, getHeartPoint]
        nlinarith
  · subst h2
    simp [resetParticle, getHeartPoint, Real.sqrt_one]

/-- C6 witness. -/
theorem resetParticle_heart_formula_witness :
    (0 : ℝ) ≤ 0 ∧ (0 : ℝ) ≤ 1 ∧
      (-(5 * Real.sqrt 1) ≤ (resetParticle 0 1 0).z ∧
        (resetParticle 0 1 0).z ≤ 5 * Real.sqrt 1) ∧
      (resetParticle 0 1 0).x = heartX (0 * π * 2) := by
  refine ⟨le_refl 0, by norm_num, ?_, ?_⟩
  · exact (resetParticle_heart_formula 0 1 0).2.1 (le_refl 0) (by norm_num)
  · exact ((resetParticle_heart_formula 0 1 0).2.2 rfl).1

/-! ## C10: pulse bounds -/

/-- C10: for every accumulated simulation time, the pulse scalar
`1 + sin(3·time)·0.05·(1 + sin(3·time + π)·0.5)` lies in
`[0.925, 1.025]`: the spring target `home · pulseScale` shrinks `home`
by at most 7.5% and enlarges it by at most 2.5%. -/
theorem pulseScale_bounds (time : ℝ) :
    0.925 ≤ pulseScale time ∧ pulseScale time ≤ 1.025 := by
  have hs : Real.sin (time * 3 + π) = -Real.sin (time * 3) := Real.sin_add_pi _
  have h1 : -1 ≤ Real.sin (time * 3) := Real.neg_one_le_sin _
  have h2 : Real.sin (time * 3) ≤ 1 := Real.sin_le_one _
  unfold pulseScale
  rw [hs]
  constructor <;> nlinarith [sq_nonneg (Real.sin (time * 3) - 1),
    sq_nonneg (Real.sin (time * 3) + 1)]

end Yurak3D
